import Mathlib

/-!
Verification of the DataScraping_Midterm election scraper.

Shallow embedding of the repository's core modules:
  * `src/scraper/parser.py`   — percentage parser, state-list extractor,
    state results-table extractor;
  * `src/models/data_models.py` — `StateData`, `YearData` (vote normalizer
    `_check_votes`), `ElectionResult`;
  * `src/scraper/collector.py` — `StateElectionScraper` orchestration
    (`_fetch_national_year_data`, `scrape_single_state`, `scrape_all_states`).

Numbers: Python ints are `Int`, Python floats are modelled as exact
rationals `ℚ` (the code only compares them and checks sign/integrality,
which `ℚ` captures; decimal literals are modelled exactly).  Character
classes (`\d`, `str.isdigit`, `\s`) are modelled over ASCII.
Fallible Python code (raising constructors) returns `Except`; code that
catches everything and degrades to `None` returns `Option`.
-/

/-- ASCII model of Python whitespace (`\s`, `str.strip`). -/
def isPyWs (c : Char) : Bool :=
  c = ' ' || c = '\t' || c = '\n' || c = '\r' || c = '\x0b' || c = '\x0c'

/-- Python `str.strip()` on a character list: drop whitespace at both ends. -/
def pyStripL (l : List Char) : List Char :=
  ((l.dropWhile isPyWs).reverse.dropWhile isPyWs).reverse

/-- Python `str.strip()`. -/
def pyStrip (s : String) : String :=
  String.mk (pyStripL s.toList)

/-- Is `pat` a prefix of `hay` (as character lists)? -/
def listStartsWith : List Char → List Char → Bool
  | _, [] => true
  | [], _ :: _ => false
  | a :: as, b :: bs => a = b && listStartsWith as bs

/-- Python `pat in hay` substring test, on character lists. -/
def hasSubList (hay pat : List Char) : Bool :=
  if listStartsWith hay pat then true
  else
    match hay with
    | [] => false
    | _ :: t => hasSubList t pat

/-- Python `pat in hay` substring test on strings. -/
def strContains (hay pat : String) : Bool :=
  hasSubList hay.toList pat.toList

/-- Python `s.startswith(pre)` (character-list model, so it evaluates by
kernel reduction). -/
def strStarts (s pre : String) : Bool :=
  listStartsWith s.toList pre.toList

/-- Value of a list of ASCII digit characters, most significant first
(Python `int(...)` on a digit string). -/
def digitsToNat (l : List Char) : Nat :=
  l.foldl (fun n c => 10 * n + (c.toNat - 48)) 0

/-- The two major parties plus the catch-all, from `models/data_models.py`
(`class Party(Enum)`). -/
inductive Party
  | democratic
  | republican
  | other
deriving DecidableEq, Repr

/-! ## Percentage parser — `parser.py`, `parse_percentage` -/

/-- Rejoin the pieces after splitting on `'.'`: the source collapses
multiple decimal points as `parts[0] + '.' + ''.join(parts[1:])`. -/
def collapseDots (l : List Char) : List Char :=
  match l.splitOn '.' with
  | [] => l
  | p0 :: rest => p0 ++ '.' :: rest.flatten

/-- Exact value of a `digits [ '.' digits ]` token, mirroring Python
`float(cleaned_text)` on the cleaned text: with integer part `i`, fraction
digits `f` of length `k`, the decimal value is `(i * 10^k + f) / 10^k`,
built with `mkRat` so it evaluates by kernel reduction. -/
def decimalValue (l : List Char) : ℚ :=
  let ip := l.takeWhile (fun c => c ≠ '.')
  let fp := (l.dropWhile (fun c => c ≠ '.')).drop 1
  mkRat (digitsToNat ip * 10 ^ fp.length + digitsToNat fp) (10 ^ fp.length)

/-- Text-cleaning pipeline of `parse_percentage`, up to but excluding the
final range check: strip, drop `%`, keep digits and dots, collapse extra
dots, reject empty or dot-only results. -/
def percentPipeline (text : String) : Option (List Char) :=
  if text = "" then none
  else
    let c1 := (pyStripL text.toList).filter (fun c => c ≠ '%')
    let c2 := c1.filter (fun c => c.isDigit || c = '.')
    let c3 := if 1 < c2.count '.' then collapseDots c2 else c2
    if c3 = [] ∨ c3 = ['.'] then none else some c3

/-- `parse_percentage` (`parser.py` lines 91–108): clean the text, convert,
and return the value only if it lies in `[0, 100]`; otherwise `None`.
There is no clamping branch in the source. -/
def parse_percentage (text : String) : Option ℚ :=
  match percentPipeline text with
  | none => none
  | some c =>
      let value := decimalValue c
      if 0 ≤ value ∧ value ≤ 100 then some value else none

/-- The numeric value the parser sees just before its range check
(spec-side observation point used to state the range-gate claims). -/
def cleanedValue (text : String) : Option ℚ :=
  (percentPipeline text).map decimalValue

/-- C2 (counterexample): the claim says a cleaned value in `(100.0, 100.1]`
is clamped to `100.0`.  On input `"100.05"` the cleaned value is
`mkRat 2001 20 = 100.05`, inside that interval, yet `parse_percentage`
returns `none`, not `some 100`. -/
theorem parse_percentage_clamp_counterexample :
    cleanedValue "100.05" = some (mkRat 2001 20) ∧
    (100 : ℚ) < mkRat 2001 20 ∧ mkRat 2001 20 ≤ mkRat 1001 10 ∧
    parse_percentage "100.05" = none ∧
    parse_percentage "100.05" ≠ some 100 := by
  refine ⟨by decide, by decide, by decide, by decide, by decide⟩

/-- C2 (amended): there is no clamping tolerance: every input whose cleaned
numeric value exceeds `100` (in particular values in `(100.0, 100.1]`)
yields `none`, and every present result lies in `[0, 100]`. -/
theorem parse_percentage_no_clamp (s : String) (v : ℚ)
    (h : cleanedValue s = some v) :
    parse_percentage s = (if 0 ≤ v ∧ v ≤ 100 then some v else none) ∧
    (100 < v → parse_percentage s = none) ∧
    (∀ w, parse_percentage s = some w → 0 ≤ w ∧ w ≤ 100) := by
  unfold cleanedValue at h
  unfold parse_percentage
  cases hp : percentPipeline s with
  | none => simp [hp] at h
  | some c =>
      simp only [hp, Option.map_some] at h ⊢
      obtain rfl : decimalValue c = v := by simpa using h
      refine ⟨rfl, ?_, ?_⟩
      · intro hv
        have : ¬ (0 ≤ decimalValue c ∧ decimalValue c ≤ 100) := by
          intro ⟨_, h2⟩; exact absurd hv (not_lt.mpr h2)
        simp [this]
      · intro w hw
        by_cases hr : 0 ≤ decimalValue c ∧ decimalValue c ≤ 100
        · rw [if_pos hr] at hw
          cases Option.some.inj hw
          exact hr
        · rw [if_neg hr] at hw
          exact absurd hw (by simp)

/-- C2 (witness): the amended theorem at `"42.5%"`, whose cleaned value is
`mkRat 85 2 = 42.5`, in range, so the parser returns it. -/
theorem parse_percentage_no_clamp_witness :
    parse_percentage "42.5%" =
      (if (0 : ℚ) ≤ mkRat 85 2 ∧ mkRat 85 2 ≤ 100 then some (mkRat 85 2) else none) := by
  exact (parse_percentage_no_clamp "42.5%" (mkRat 85 2) (by decide)).1

/-! ## Vote-count normalizer — `data_models.py`, `YearData._check_votes` -/

/-- A Python value passed as a vote count: `None`, an `int`, a `float`
(modelled as an exact rational: the code only checks `is_integer()` and
sign, which ℚ captures), a `str`, or any other object. -/
inductive PyVoteVal
  | vnone
  | vint (i : Int)
  | vfloat (q : ℚ)
  | str (s : String)
  | other
deriving DecidableEq, Repr

/-- The string cleaning `re.sub(r'[,\s]', '', votes)`: drop every comma
and whitespace character. -/
def cleanVotes (s : String) : List Char :=
  s.toList.filter (fun c => !(c = ',' || isPyWs c))

/-- Python `str.isdigit` (ASCII model): non-empty and all digits. -/
def isDigitStr (l : List Char) : Prop :=
  l ≠ [] ∧ ∀ c ∈ l, c.isDigit

instance (l : List Char) : Decidable (isDigitStr l) := by
  unfold isDigitStr; infer_instance

/-- `YearData._check_votes` (`data_models.py` lines 71–106): `None` passes
through; strings are cleaned of commas/whitespace and must be purely
digits; floats must be integral and non-negative; any other type is
rejected; a final sign check rejects negatives.  Every failure degrades to
`none` (the Python prints a warning and returns `None`; it never raises —
this embedding is a total function). -/
def check_votes : PyVoteVal → Option Int
  | .vnone => none
  | .str s =>
      let cleaned := cleanVotes s
      if isDigitStr cleaned then
        let votes : Int := (digitsToNat cleaned : Nat)
        if votes < 0 then none else some votes
      else none
  | .vfloat q =>
      if q.den = 1 ∧ 0 ≤ q then
        if q.num < 0 then none else some q.num
      else none
  | .vint i => if i < 0 then none else some i
  | .other => none

/-- C3 (confirmed): the vote normalizer returns the parsed non-negative
integer exactly for comma/whitespace-separated digit strings, and `none`
for every negative int, every non-digit string, every non-integral or
negative float, and every other input; being a total function it never
raises. -/
theorem check_votes_normalizer_spec :
    check_votes (.str "81,283,501") = some 81283501 ∧
    check_votes (.str "-5") = none ∧
    check_votes (.str "abc") = none ∧
    (∀ s : String, isDigitStr (cleanVotes s) →
        check_votes (.str s) = some ((digitsToNat (cleanVotes s) : Nat) : Int) ∧
        0 ≤ ((digitsToNat (cleanVotes s) : Nat) : Int)) ∧
    (∀ s : String, ¬ isDigitStr (cleanVotes s) → check_votes (.str s) = none) ∧
    (∀ i : Int, i < 0 → check_votes (.vint i) = none) ∧
    (∀ i : Int, 0 ≤ i → check_votes (.vint i) = some i) ∧
    (∀ q : ℚ, q.den ≠ 1 ∨ q < 0 → check_votes (.vfloat q) = none) ∧
    check_votes .other = none ∧
    check_votes .vnone = none := by
  refine ⟨by decide, by decide, by decide, ?_, ?_, ?_, ?_, ?_, rfl, rfl⟩
  · intro s hs
    refine ⟨?_, Int.ofNat_nonneg _⟩
    simp only [check_votes, if_pos hs]
    rw [if_neg (by exact Int.not_lt.mpr (Int.ofNat_nonneg _))]
  · intro s hs
    simp only [check_votes, if_neg hs]
  · intro i hi
    simp only [check_votes, if_pos hi]
  · intro i hi
    simp only [check_votes, if_neg (Int.not_lt.mpr hi)]
  · intro q hq
    rcases hq with hq | hq
    · simp only [check_votes]
      rw [if_neg (by intro ⟨h1, _⟩; exact hq h1)]
    · simp only [check_votes]
      rw [if_neg (by intro ⟨_, h2⟩; exact absurd hq (not_lt.mpr h2))]

/-- C3 (witness): the universally quantified conjuncts of the normalizer
spec, discharged at the concrete inputs `" 1,234 "`, `"x9"`, `-7`, `7`,
and the float `5/2`. -/
theorem check_votes_normalizer_spec_witness :
    check_votes (.str " 1,234 ") = some 1234 ∧
    check_votes (.str "x9") = none ∧
    check_votes (.vint (-7)) = none ∧
    check_votes (.vint 7) = some 7 ∧
    check_votes (.vfloat (mkRat 5 2)) = none := by
  refine ⟨?_, ?_, ?_, ?_, ?_⟩
  · have h := (check_votes_normalizer_spec.2.2.2.1 " 1,234 " (by decide)).1
    simpa using h
  · exact check_votes_normalizer_spec.2.2.2.2.1 "x9" (by decide)
  · exact check_votes_normalizer_spec.2.2.2.2.2.1 (-7) (by decide)
  · exact check_votes_normalizer_spec.2.2.2.2.2.2.1 7 (by decide)
  · exact check_votes_normalizer_spec.2.2.2.2.2.2.2.1 (mkRat 5 2) (Or.inl (by decide))

/-! ## Data models — `data_models.py` -/

/-- `StateData`: name, electoral votes, population. -/
structure StateData where
  state_name : String
  electoral_votes : Option Int
  total_population : Option Int
deriving DecidableEq, Repr

/-- Python errors raised by the record constructors. -/
inductive PyError
  | typeError
  | valueError
deriving DecidableEq, Repr

/-- `StateData.__init__`: an empty name raises `ValueError` (the
`isinstance` checks are discharged by typing in this embedding). -/
def StateData.init (state_name : String) (electoral_votes total_population : Option Int) :
    Except PyError StateData :=
  if state_name = "" then .error .valueError
  else .ok ⟨state_name, electoral_votes, total_population⟩

/-- `YearData`: one election year's national data, votes already passed
through `_check_votes`. -/
structure YearData where
  year : Int
  dem_leader : Option String
  rep_leader : Option String
  dem_votes : Option Int
  rep_votes : Option Int
  total_votes : Option Int
  winner_image_url : Option String
deriving DecidableEq, Repr

/-- `YearData.__init__`: with arguments of the statically correct types the
only normalization is `_check_votes` on the three vote fields; it cannot
raise. -/
def YearData.init (year : Int) (dem_leader rep_leader : Option String)
    (dem_votes rep_votes total_votes : PyVoteVal) (winner_image_url : Option String) :
    YearData :=
  { year := year
    dem_leader := dem_leader
    rep_leader := rep_leader
    dem_votes := check_votes dem_votes
    rep_votes := check_votes rep_votes
    total_votes := check_votes total_votes
    winner_image_url := winner_image_url }

/-- A Python value passed as the `winner` argument of `ElectionResult`:
a `Party` member, `None`, or any other object whatsoever (tagged). -/
inductive PyWinner
  | party (p : Party)
  | pynone
  | junk (tag : String)
deriving DecidableEq, Repr

/-- A Python value passed as a percentage: `None`, a number, or a
non-numeric object. -/
inductive PyPct
  | pynone
  | num (q : ℚ)
  | nonNum
deriving DecidableEq, Repr

/-- A Python value passed as `state_info`. -/
inductive PyStateArg
  | stateData (sd : StateData)
  | notStateData
deriving DecidableEq, Repr

/-- A Python value passed as `year_info`. -/
inductive PyYearArg
  | yearData (yd : YearData)
  | notYearData
deriving DecidableEq, Repr

/-- `ElectionResult`: one state, one year, the state-level percentages and
the state-level winner, stored exactly as passed. -/
structure ElectionResult where
  state_info : StateData
  year_info : YearData
  dem_percentage : Option ℚ
  rep_percentage : Option ℚ
  winner : PyWinner
deriving DecidableEq, Repr

/-- `ElectionResult._check_percentage`: `None` passes; a non-number raises
`TypeError`; a number outside `[0, 100]` raises `ValueError`. -/
def check_percentage : PyPct → Except PyError (Option ℚ)
  | .pynone => .ok none
  | .nonNum => .error .typeError
  | .num q => if 0 ≤ q ∧ q ≤ 100 then .ok (some q) else .error .valueError

/-- `ElectionResult.__init__` (`data_models.py` lines 122–148): type-checks
`state_info` and `year_info`, validates both percentages, and stores
`winner` unchanged — the source comments "Assumes winner is validated
elsewhere if needed" and performs no check on it. -/
def ElectionResult.init (state_info : PyStateArg) (year_info : PyYearArg)
    (dem_percentage rep_percentage : PyPct) (winner : PyWinner) :
    Except PyError ElectionResult :=
  match state_info with
  | .notStateData => .error .typeError
  | .stateData s =>
      match year_info with
      | .notYearData => .error .typeError
      | .yearData y =>
          match check_percentage dem_percentage with
          | .error e => .error e
          | .ok d =>
              match check_percentage rep_percentage with
              | .error e => .error e
              | .ok r => .ok ⟨s, y, d, r, winner⟩

/-- Does `ElectionResult.__init__` succeed on these arguments? -/
def initArgsOk (state_info : PyStateArg) (year_info : PyYearArg)
    (dem_percentage rep_percentage : PyPct) : Prop :=
  (∃ s, state_info = .stateData s) ∧ (∃ y, year_info = .yearData y) ∧
  (∃ d, check_percentage dem_percentage = .ok d) ∧
  (∃ r, check_percentage rep_percentage = .ok r)

/-- C10 (confirmed): `ElectionResult` construction succeeds exactly when
`state_info` is a `StateData`, `year_info` is a `YearData`, and both
percentages pass `_check_percentage` — a condition independent of the
`winner` argument — and on success the `winner` argument, whatever it is,
is stored unchanged. -/
theorem election_result_winner_unvalidated
    (sa : PyStateArg) (ya : PyYearArg) (dp rp : PyPct) (w : PyWinner) :
    ((∃ res, ElectionResult.init sa ya dp rp w = .ok res) ↔ initArgsOk sa ya dp rp) ∧
    (∀ res, ElectionResult.init sa ya dp rp w = .ok res → res.winner = w) := by
  constructor
  · constructor
    · rintro ⟨res, hres⟩
      cases sa with
      | notStateData => simp [ElectionResult.init] at hres
      | stateData s =>
          cases ya with
          | notYearData => simp [ElectionResult.init] at hres
          | yearData y =>
              cases hd : check_percentage dp with
              | error e => simp [ElectionResult.init, hd] at hres
              | ok d =>
                  cases hr : check_percentage rp with
                  | error e => simp [ElectionResult.init, hd, hr] at hres
                  | ok r => exact ⟨⟨s, rfl⟩, ⟨y, rfl⟩, ⟨d, hd⟩, ⟨r, hr⟩⟩
    · rintro ⟨⟨s, rfl⟩, ⟨y, rfl⟩, ⟨d, hd⟩, ⟨r, hr⟩⟩
      exact ⟨⟨s, y, d, r, w⟩, by simp [ElectionResult.init, hd, hr]⟩
  · intro res hres
    cases sa with
    | notStateData => simp [ElectionResult.init] at hres
    | stateData s =>
        cases ya with
        | notYearData => simp [ElectionResult.init] at hres
        | yearData y =>
            cases hd : check_percentage dp with
            | error e => simp [ElectionResult.init, hd] at hres
            | ok d =>
                cases hr : check_percentage rp with
                | error e => simp [ElectionResult.init, hd, hr] at hres
                | ok r =>
                    simp only [ElectionResult.init, hd, hr] at hres
                    cases Except.ok.inj hres
                    rfl

/-- C10 (witness): with a valid state and year and absent percentages, a
winner argument that is not a party at all (`junk "not a party"`) still
yields a successful construction storing that value unchanged. -/
theorem election_result_winner_unvalidated_witness :
    (∃ res,
        ElectionResult.init (.stateData ⟨"Ohio", none, none⟩)
          (.yearData (YearData.init 2020 none none .vnone .vnone .vnone none))
          .pynone .pynone (.junk "not a party") = .ok res) ∧
    (∀ res,
        ElectionResult.init (.stateData ⟨"Ohio", none, none⟩)
          (.yearData (YearData.init 2020 none none .vnone .vnone .vnone none))
          .pynone .pynone (.junk "not a party") = .ok res →
        res.winner = .junk "not a party") := by
  have h := election_result_winner_unvalidated (.stateData ⟨"Ohio", none, none⟩)
    (.yearData (YearData.init 2020 none none .vnone .vnone .vnone none))
    .pynone .pynone (.junk "not a party")
  exact ⟨h.1.mpr ⟨⟨_, rfl⟩, ⟨_, rfl⟩, ⟨none, rfl⟩, ⟨none, rfl⟩⟩, h.2⟩

/-! ## State-list extractor — `parser.py`, `parse_state_links` -/

/-- An `<a>` element: optional `href` attribute and its visible text
(as returned by `get_text(strip=True)` before stripping — the model
applies the strip itself). -/
structure Anchor where
  href : Option String
  text : String
deriving DecidableEq, Repr

/-- A candidate content area (`div#primary`, `main`, or `body`).
BeautifulSoup tag truthiness is `len(tag.contents) != 0`, so the model
keeps the number of direct children alongside the descendant anchors. -/
structure Area where
  contentLen : Nat
  anchors : List Anchor
deriving DecidableEq, Repr

/-- The directory page (states list) as `parse_state_links` consumes it. -/
structure StatesSoup where
  divPrimary : Option Area
  mainTag : Option Area
  bodyTag : Option Area
deriving DecidableEq, Repr

/-- Python truthiness of `soup.find(...)`: present and non-empty. -/
def truthyArea : Option Area → Bool
  | some a => a.contentLen != 0
  | none => false

/-- `soup.find('div', id='primary') or soup.find('main') or soup.body`
followed by `if not content_area: return {}`: the first truthy area, if
any. -/
def contentArea (sp : StatesSoup) : Option Area :=
  if truthyArea sp.divPrimary then sp.divPrimary
  else if truthyArea sp.mainTag then sp.mainTag
  else if truthyArea sp.bodyTag then sp.bodyTag
  else none

/-- Does the character list match `\s*\(.*\)\s*$` (with `.` not matching a
newline)? That is: leading whitespace, `(`, anything newline-free, `)`,
trailing whitespace, to the end. -/
def tailParenMatch (l : List Char) : Bool :=
  match l.dropWhile isPyWs with
  | '(' :: rest =>
      match rest.reverse.dropWhile isPyWs with
      | ')' :: midRev => midRev.all (fun c => c ≠ '\n')
      | _ => false
  | _ => false

/-- `re.sub(r'\s*\(.*\)\s*$', '', s)`: remove the leftmost suffix matching
the pattern (a trailing parenthetical annotation), if any. -/
def subTrailingParen (l : List Char) : List Char :=
  match (List.range (l.length + 1)).find? (fun i => tailParenMatch (l.drop i)) with
  | some i => l.take i
  | none => l

/-- `re.sub(r'^\s*\d+\s*', '', s)`: remove a leading run of whitespace,
digits (at least one), and whitespace. -/
def subLeadingNum (l : List Char) : List Char :=
  let r1 := l.dropWhile isPyWs
  if (r1.takeWhile Char.isDigit) = [] then l
  else (r1.dropWhile Char.isDigit).dropWhile isPyWs

/-- The display-name cleanup applied to each anchor text:
`get_text(strip=True)`, strip the trailing parenthetical, strip leading
ordinal digits, stripping whitespace after each step. -/
def cleanStateName (t : String) : String :=
  let s0 := pyStripL t.toList
  let s1 := pyStripL (subTrailingParen s0)
  String.mk (pyStripL (subLeadingNum s1))

/-- The per-link guard of `parse_state_links`:
`href.startswith('/states/') and len(href.split('/')) == 3 and
href != '/states/'` (a string splits into three parts on `/` exactly when
it contains two slashes). -/
def hrefOk (h : String) : Prop :=
  strStarts h "/states/" = true ∧ h.toList.count '/' = 2 ∧ h ≠ "/states/"

instance (h : String) : Decidable (hrefOk h) := by
  unfold hrefOk; infer_instance

/-- Loop body of `parse_state_links`: check the href, clean the name, and
insert into the (assoc-list model of the) dict when the name is non-empty,
is not the "States A-Z" navigation text, and is not already a key. -/
def stateLinkStep (acc : List (String × String)) (l : Anchor) : List (String × String) :=
  match l.href with
  | none => acc
  | some href =>
      if hrefOk href then
        let nm := cleanStateName l.text
        if nm ≠ "" ∧ nm ≠ "States A-Z" ∧ (∀ kv ∈ acc, kv.1 ≠ nm) then
          acc ++ [(nm, href)]
        else acc
      else acc

/-- `content_area.select('a[href^="/states/"]')`: descendant anchors with
an `href` attribute starting with `/states/`. -/
def selectStateAnchors (a : Area) : List Anchor :=
  a.anchors.filter (fun l =>
    match l.href with
    | some h => strStarts h "/states/"
    | none => false)

/-- `parse_state_links` (`parser.py` lines 28–43): find a content area,
select the `/states/` anchors, and fold them into a name → path mapping.
The source contains no purely-numeric rejection, no length bound, and no
federal-district special case. -/
def parse_state_links (soup : Option StatesSoup) : List (String × String) :=
  match soup with
  | none => []
  | some sp =>
      match contentArea sp with
      | none => []
      | some area => (selectStateAnchors area).foldl stateLinkStep []

/-- Case analysis of one `parse_state_links` loop iteration: either the
accumulator is unchanged, or exactly one fresh, cleaned, guarded entry is
appended. -/
lemma stateLinkStep_cases (acc : List (String × String)) (l : Anchor) :
    stateLinkStep acc l = acc ∨
      ∃ nm href, l.href = some href ∧ hrefOk href ∧ nm = cleanStateName l.text ∧
        nm ≠ "" ∧ nm ≠ "States A-Z" ∧ (∀ kv ∈ acc, kv.1 ≠ nm) ∧
        stateLinkStep acc l = acc ++ [(nm, href)] := by
  cases hh : l.href with
  | none => exact Or.inl (by simp [stateLinkStep, hh])
  | some href =>
      by_cases h1 : hrefOk href
      · by_cases h2 : cleanStateName l.text ≠ "" ∧ cleanStateName l.text ≠ "States A-Z" ∧
            (∀ kv ∈ acc, kv.1 ≠ cleanStateName l.text)
        · refine Or.inr ⟨cleanStateName l.text, href, rfl, h1, rfl, h2.1, h2.2.1, h2.2.2, ?_⟩
          simp only [stateLinkStep, hh]
          rw [if_pos h1, if_pos h2]
        · refine Or.inl ?_
          simp only [stateLinkStep, hh]
          rw [if_pos h1, if_neg h2]
      · refine Or.inl ?_
        simp only [stateLinkStep, hh]
        rw [if_neg h1]

/-- The `parse_state_links` fold keeps keys pairwise distinct, non-empty,
and different from the navigation text. -/
lemma stateLinks_foldl_inv :
    ∀ (ls : List Anchor) (acc : List (String × String)),
      acc.Pairwise (fun a b => a.1 ≠ b.1) →
      (∀ kv ∈ acc, kv.1 ≠ "" ∧ kv.1 ≠ "States A-Z") →
      (ls.foldl stateLinkStep acc).Pairwise (fun a b => a.1 ≠ b.1) ∧
        ∀ kv ∈ ls.foldl stateLinkStep acc, kv.1 ≠ "" ∧ kv.1 ≠ "States A-Z" := by
  intro ls
  induction ls with
  | nil => intro acc h1 h2; exact ⟨h1, h2⟩
  | cons l t ih =>
      intro acc h1 h2
      simp only [List.foldl_cons]
      rcases stateLinkStep_cases acc l with heq | ⟨nm, href, _, _, _, hne, hnaz, hfresh, heq⟩
      · rw [heq]; exact ih acc h1 h2
      · rw [heq]
        apply ih
        · rw [List.pairwise_append]
          refine ⟨h1, List.pairwise_singleton _ _, ?_⟩
          intro a ha b hb
          simp only [List.mem_singleton] at hb
          subst hb
          exact hfresh a ha
        · intro kv hkv
          rcases List.mem_append.mp hkv with h | h
          · exact h2 kv h
          · simp only [List.mem_singleton] at h
            subst h
            exact ⟨hne, hnaz⟩

/-- Every entry produced by the `parse_state_links` fold comes from an
anchor of the iterated list through the generic guard-and-clean path. -/
lemma stateLinks_foldl_origin :
    ∀ (ls : List Anchor) (acc : List (String × String)) (kv : String × String),
      kv ∈ ls.foldl stateLinkStep acc →
      kv ∈ acc ∨ ∃ l ∈ ls, l.href = some kv.2 ∧ hrefOk kv.2 ∧ kv.1 = cleanStateName l.text := by
  intro ls
  induction ls with
  | nil => intro acc kv h; exact Or.inl h
  | cons l t ih =>
      intro acc kv h
      simp only [List.foldl_cons] at h
      rcases ih _ kv h with hin | ⟨a, ha, h1, h2, h3⟩
      · rcases stateLinkStep_cases acc l with heq | ⟨nm, href, hl1, hl2, hl3, _, _, _, heq⟩
        · rw [heq] at hin; exact Or.inl hin
        · rw [heq] at hin
          rcases List.mem_append.mp hin with h | h
          · exact Or.inl h
          · simp only [List.mem_singleton] at h
            subst h
            exact Or.inr ⟨l, List.mem_cons_self l t, hl1, hl2, hl3⟩
      · exact Or.inr ⟨a, List.mem_cons_of_mem _ ha, h1, h2, h3⟩

/-- A directory page on which the generic path extracts both a 31-character
name and a purely numeric name (from the text `"12 34"`, whose leading
digit run is stripped, leaving `"34"`). -/
def docLinksCex : StatesSoup :=
  { divPrimary := some
      { contentLen := 1
        anchors :=
          [ { href := some "/states/longplace", text := "Abcdefghijklmnopqrstuvwxyzabcde" }
          , { href := some "/states/3434", text := "12 34" } ] }
    mainTag := none
    bodyTag := none }

/-- C7 (counterexample): the claim says keys are never purely numeric nor
longer than 30 characters.  On `docLinksCex`, `parse_state_links` returns a
key of length 31 and the purely numeric key `"34"` — the source has no
such rejection. -/
theorem state_links_reject_counterexample :
    parse_state_links (some docLinksCex) =
      [("Abcdefghijklmnopqrstuvwxyzabcde", "/states/longplace"), ("34", "/states/3434")] ∧
    30 < "Abcdefghijklmnopqrstuvwxyzabcde".length ∧
    ("34" : String) ≠ "" ∧ (∀ c ∈ "34".toList, c.isDigit) := by
  refine ⟨by decide, by decide, by decide, by decide⟩

/-- C7 (amended): the extractor deduplicates by name and rejects only the
empty name and the `"States A-Z"` navigation text; keys may be purely
numeric or longer than 30 characters (no such guard exists). -/
theorem state_links_keys_amended (soup : Option StatesSoup) :
    (parse_state_links soup).Pairwise (fun a b => a.1 ≠ b.1) ∧
      ∀ kv ∈ parse_state_links soup, kv.1 ≠ "" ∧ kv.1 ≠ "States A-Z" := by
  cases soup with
  | none =>
      simp only [parse_state_links]
      exact ⟨List.Pairwise.nil, by intro kv h; cases h⟩
  | some sp =>
      cases harea : contentArea sp with
      | none =>
          simp only [parse_state_links, harea]
          exact ⟨List.Pairwise.nil, by intro kv h; cases h⟩
      | some area =>
          simp only [parse_state_links, harea]
          exact stateLinks_foldl_inv (selectStateAnchors area) []
            List.Pairwise.nil (by intro kv h; cases h)

/-- A directory page used to witness the amended key properties: the two
identical anchors are deduplicated, and the trailing electoral-vote
annotation `" (16)"` is stripped from the name. -/
def docLinksW : StatesSoup :=
  { divPrimary := some
      { contentLen := 2
        anchors :=
          [ { href := some "/states/georgia", text := "Georgia (16)" }
          , { href := some "/states/georgia", text := "Georgia (16)" } ] }
    mainTag := none
    bodyTag := none }

/-- C7 (witness): the amended theorem evaluated on `docLinksW`: its single
deduplicated key `"Georgia"` is non-empty and is not the navigation
text. -/
theorem state_links_keys_amended_witness :
    (parse_state_links (some docLinksW)).Pairwise (fun a b => a.1 ≠ b.1) ∧
      ("Georgia" : String) ≠ "" ∧ ("Georgia" : String) ≠ "States A-Z" := by
  refine ⟨(state_links_keys_amended (some docLinksW)).1, ?_⟩
  exact (state_links_keys_amended (some docLinksW)).2 ("Georgia", "/states/georgia") (by decide)

/-- A directory page whose only generic-path anchor is Virginia; the
federal district appears nowhere the extractor looks. -/
def docLinksNoDC : StatesSoup :=
  { divPrimary := some
      { contentLen := 1
        anchors := [ { href := some "/states/virginia", text := "Virginia" } ] }
    mainTag := none
    bodyTag := none }

/-- C8 (counterexample): the claim says the federal district is always
included via a fallback search when the generic discovery misses it.  On
`docLinksNoDC` the generic path yields only Virginia and the result
contains no federal-district key: the source has no fallback. -/
theorem state_links_no_dc_counterexample :
    parse_state_links (some docLinksNoDC) = [("Virginia", "/states/virginia")] ∧
    ∀ kv ∈ parse_state_links (some docLinksNoDC), kv.1 ≠ "District of Columbia" := by
  refine ⟨by decide, by decide⟩

/-- C8 (amended): `parse_state_links` contains no federal-district special
case: every entry of its output originates from a content-area anchor via
the generic href guard and name cleanup, so a document on which the
federal district fails that generic path yields an output without it. -/
theorem state_links_generic_origin (soup : Option StatesSoup) (kv : String × String)
    (hkv : kv ∈ parse_state_links soup) :
    ∃ sp, soup = some sp ∧ ∃ area, contentArea sp = some area ∧
      ∃ l ∈ area.anchors, l.href = some kv.2 ∧ hrefOk kv.2 ∧ kv.1 = cleanStateName l.text := by
  cases soup with
  | none => cases hkv
  | some sp =>
      refine ⟨sp, rfl, ?_⟩
      cases harea : contentArea sp with
      | none =>
          simp only [parse_state_links, harea] at hkv
          cases hkv
      | some area =>
          simp only [parse_state_links, harea] at hkv
          refine ⟨area, rfl, ?_⟩
          rcases stateLinks_foldl_origin (selectStateAnchors area) [] kv hkv with h | ⟨l, hl, h1, h2, h3⟩
          · cases h
          · refine ⟨l, ?_, h1, h2, h3⟩
            exact (List.mem_filter.mp hl).1

/-- C8 (witness): the amended origin theorem at the concrete page
`docLinksNoDC` and its single output entry. -/
theorem state_links_generic_origin_witness :
    ∃ sp, (some docLinksNoDC : Option StatesSoup) = some sp ∧
      ∃ area, contentArea sp = some area ∧
        ∃ l ∈ area.anchors, l.href = some "/states/virginia" ∧ hrefOk "/states/virginia" ∧
          "Virginia" = cleanStateName l.text := by
  exact state_links_generic_origin (some docLinksNoDC) ("Virginia", "/states/virginia") (by decide)

/-! ## Results-table extractor — `parser.py`, `parse_election_results_table`
(the second, later definition, which shadows the first at import time) -/

/-- First `<tr>` of the nested percentage sub-table: its `<td>` texts. -/
structure NestedRow where
  cells : List String
deriving DecidableEq, Repr

/-- The nested sub-table in the second cell (`cells[1].find('table')`);
`find('tr')` may find no row. -/
structure NestedTable where
  firstRow : Option NestedRow
deriving DecidableEq, Repr

/-- A direct-child `<td>` of a result row: its stripped text and the first
nested `<table>`, if any. -/
structure Cell where
  text : String
  nestedTable : Option NestedTable
deriving DecidableEq, Repr

/-- A `tr.toggle-row` of the results table: optional `style` attribute and
its direct-child `<td>` elements. -/
structure TRow where
  style : Option String
  tds : List Cell
deriving DecidableEq, Repr

/-- The `table#recent_elections` element: its `tr.toggle-row` rows in
document order (the CSS union selector deduplicates). -/
structure ResultsTable where
  toggleRows : List TRow
deriving DecidableEq, Repr

/-- A state page as `parse_election_results_table` consumes it. -/
structure ResultsDoc where
  recentElections : Option ResultsTable
deriving DecidableEq, Repr

/-- One output dict of `parse_election_results_table`; leaders and vote
counts are always `None` in the source ("not available on this site"). -/
structure ResultRow where
  year : Int
  dem_leader : Option String
  rep_leader : Option String
  dem_pct : Option ℚ
  rep_pct : Option ℚ
  dem_votes : Option Int
  rep_votes : Option Int
  total_votes : Option Int
  winner : Option Party
deriving DecidableEq, Repr

/-- `row.get('style') and 'display:none' in row.get('style', '')`:
a truthy (non-empty) style attribute containing the hiding directive. -/
def rowHidden (r : TRow) : Prop :=
  match r.style with
  | some s => s ≠ "" ∧ strContains s "display:none" = true
  | none => False

instance (r : TRow) : Decidable (rowHidden r) := by
  unfold rowHidden
  cases r.style <;> infer_instance

/-- `re.match(r'(\d{4})', year_text)`: the first four characters are ASCII
digits; their value is the year. -/
def extractYear (s : String) : Option Int :=
  match s.toList with
  | a :: b :: c :: d :: _ =>
      if a.isDigit ∧ b.isDigit ∧ c.isDigit ∧ d.isDigit then
        some ((digitsToNat [a, b, c, d] : Nat) : Int)
      else none
  | _ => none

/-- Percentage-and-winner extraction from the second cell: first nested
table, first row, `parse_percentage` on positions 0 and 2, and the winner
comparison — all inside the nested-row branch, as in the source; outside
it everything stays `None`. -/
def nestedPcts (c : Cell) : Option ℚ × Option ℚ × Option Party :=
  match c.nestedTable with
  | none => (none, none, none)
  | some nt =>
      match nt.firstRow with
      | none => (none, none, none)
      | some nr =>
          let dem_pct := if 1 ≤ nr.cells.length then parse_percentage (nr.cells.getD 0 "") else none
          let rep_pct := if 3 ≤ nr.cells.length then parse_percentage (nr.cells.getD 2 "") else none
          let winner : Option Party :=
            match dem_pct, rep_pct with
            | some d, some r =>
                some (if r < d then Party.democratic
                      else if d < r then Party.republican
                      else Party.other)
            | _, _ => none
          (dem_pct, rep_pct, winner)

/-- One iteration of the row loop in `parse_election_results_table`
(lines 208–261): skip hidden rows and rows with fewer than two cells,
extract and filter the year, then extract percentages and winner. -/
def processRow (target_years : List Int) (row : TRow) : Option ResultRow :=
  if rowHidden row then none
  else if row.tds.length < 2 then none
  else
    match extractYear (row.tds.getD 0 ⟨"", none⟩).text with
    | none => none
    | some year =>
        if year ∉ target_years then none
        else
          let p := nestedPcts (row.tds.getD 1 ⟨"", none⟩)
          some { year := year
                 dem_leader := none
                 rep_leader := none
                 dem_pct := p.1
                 rep_pct := p.2.1
                 dem_votes := none
                 rep_votes := none
                 total_votes := none
                 winner := p.2.2 }

/-- `parse_election_results_table` (`parser.py` lines 190–263): locate
`table#recent_elections`, iterate its toggle rows, emit one record per
surviving row. -/
def parse_election_results_table (soup : Option ResultsDoc) (target_years : List Int) :
    List ResultRow :=
  match soup with
  | none => []
  | some doc =>
      match doc.recentElections with
      | none => []
      | some tbl => tbl.toggleRows.filterMap (processRow target_years)

/-- Whenever `processRow` emits a record, the record's year passed the
target filter and its winner is exactly the comparison of its two
percentage fields. -/
lemma processRow_spec (target_years : List Int) (row : TRow) (r : ResultRow)
    (h : processRow target_years row = some r) :
    r.year ∈ target_years ∧
      r.winner = (match r.dem_pct, r.rep_pct with
        | some d, some p =>
            some (if p < d then Party.democratic
                  else if d < p then Party.republican
                  else Party.other)
        | _, _ => none) := by
  unfold processRow at h
  by_cases h1 : rowHidden row
  · rw [if_pos h1] at h; cases h
  · rw [if_neg h1] at h
    by_cases h2 : row.tds.length < 2
    · rw [if_pos h2] at h; cases h
    · rw [if_neg h2] at h
      cases hy : extractYear (row.tds.getD 0 ⟨"", none⟩).text with
      | none => simp only [hy] at h; cases h
      | some year =>
          simp only [hy] at h
          by_cases h3 : year ∉ target_years
          · rw [if_pos h3] at h; cases h
          · rw [if_neg h3] at h
            cases Option.some.inj h
            refine ⟨not_not.mp h3, ?_⟩
            rcases hp : nestedPcts (row.tds.getD 1 ⟨"", none⟩) with ⟨d, p, w⟩
            simp only [hp]
            cases hnt : (row.tds.getD 1 ⟨"", none⟩).nestedTable with
            | none => simp only [nestedPcts, hnt] at hp; cases hp; rfl
            | some nt =>
                cases hnr : nt.firstRow with
                | none => simp only [nestedPcts, hnt, hnr] at hp; cases hp; rfl
                | some nr =>
                    simp only [nestedPcts, hnt, hnr] at hp
                    cases hp
                    cases hd : (if 1 ≤ nr.cells.length then parse_percentage (nr.cells.getD 0 "") else none) <;>
                      cases hr : (if 3 ≤ nr.cells.length then parse_percentage (nr.cells.getD 2 "") else none) <;>
                        simp [hd, hr]

/-- C6 (confirmed): every record emitted by the results-table extractor
carries a year in the caller's target set; rows with an out-of-set or
unparseable year contribute nothing. -/
theorem results_table_year_filter (soup : Option ResultsDoc) (target_years : List Int)
    (r : ResultRow) (hr : r ∈ parse_election_results_table soup target_years) :
    r.year ∈ target_years := by
  cases soup with
  | none => cases hr
  | some doc =>
      cases htb : doc.recentElections with
      | none => simp only [parse_election_results_table, htb] at hr; cases hr
      | some tbl =>
          simp only [parse_election_results_table, htb] at hr
          rcases List.mem_filterMap.mp hr with ⟨row, _, hrow⟩
          exact (processRow_spec target_years row r hrow).1

/-- C1 (amended): for every emitted record, when both percentages are
present the winner is Democratic, Republican, or (on an exact tie) Other
by strict comparison; when at most one percentage is present the winner is
absent (`None`), not `Other`. -/
theorem state_winner_from_percentages (soup : Option ResultsDoc) (target_years : List Int)
    (r : ResultRow) (hr : r ∈ parse_election_results_table soup target_years) :
    r.winner = (match r.dem_pct, r.rep_pct with
      | some d, some p =>
          some (if p < d then Party.democratic
                else if d < p then Party.republican
                else Party.other)
      | _, _ => none) := by
  cases soup with
  | none => cases hr
  | some doc =>
      cases htb : doc.recentElections with
      | none => simp only [parse_election_results_table, htb] at hr; cases hr
      | some tbl =>
          simp only [parse_election_results_table, htb] at hr
          rcases List.mem_filterMap.mp hr with ⟨row, _, hrow⟩
          exact (processRow_spec target_years row r hrow).2

/-- A state page with one 2020 row whose nested sub-table yields a
Democratic percentage (`"51.3%"`) but no parseable Republican percentage
(`"zz"`). -/
def docResCex : ResultsDoc :=
  { recentElections := some
      { toggleRows :=
          [ { style := none
              tds :=
                [ { text := "2020", nestedTable := none }
                , { text := ""
                    nestedTable := some { firstRow := some { cells := ["51.3%", "x", "zz"] } } } ] } ] } }

/-- C1 (counterexample): the claim says that when exactly one of the two
percentages is present the winner is `Other`.  On `docResCex` the emitted
record has `dem_pct` present and `rep_pct` absent, yet its winner is
`None`, not `Other`. -/
theorem state_winner_partial_counterexample :
    parse_election_results_table (some docResCex) [2020] =
      [{ year := 2020, dem_leader := none, rep_leader := none,
         dem_pct := some (mkRat 513 10), rep_pct := none,
         dem_votes := none, rep_votes := none, total_votes := none,
         winner := none }] ∧
    (none : Option Party) ≠ some Party.other := by
  refine ⟨by decide, by decide⟩

/-- A state page with one 2020 row carrying both percentages
(`51.3%` Democratic, `46.8%` Republican). -/
def docResW : ResultsDoc :=
  { recentElections := some
      { toggleRows :=
          [ { style := none
              tds :=
                [ { text := "2020", nestedTable := none }
                , { text := ""
                    nestedTable := some { firstRow := some { cells := ["51.3%", "x", "46.8%"] } } } ] } ] } }

/-- The record `docResW` produces: both percentages present, Democratic
winner by strict comparison. -/
def resRowW : ResultRow :=
  { year := 2020, dem_leader := none, rep_leader := none,
    dem_pct := some (mkRat 513 10), rep_pct := some (mkRat 234 5),
    dem_votes := none, rep_votes := none, total_votes := none,
    winner := some Party.democratic }

/-- C1 (witness): the amended winner rule applied to the concrete record
emitted for `docResW`. -/
theorem state_winner_from_percentages_witness :
    resRowW ∈ parse_election_results_table (some docResW) [2020] ∧
    resRowW.winner = (match resRowW.dem_pct, resRowW.rep_pct with
      | some d, some p =>
          some (if p < d then Party.democratic
                else if d < p then Party.republican
                else Party.other)
      | _, _ => none) := by
  exact ⟨by decide, state_winner_from_percentages (some docResW) [2020] resRowW (by decide)⟩

/-- A state page carrying rows for 2020, 2018, 2016 and 2012 (years only,
no nested percentage tables). -/
def docYears : ResultsDoc :=
  { recentElections := some
      { toggleRows :=
          [ { style := none, tds := [{ text := "2020", nestedTable := none }, { text := "", nestedTable := none }] }
          , { style := none, tds := [{ text := "2018", nestedTable := none }, { text := "", nestedTable := none }] }
          , { style := none, tds := [{ text := "2016", nestedTable := none }, { text := "", nestedTable := none }] }
          , { style := none, tds := [{ text := "2012", nestedTable := none }, { text := "", nestedTable := none }] } ] } }

/-- The record emitted for the 2020 row of `docYears`. -/
def rowY2020 : ResultRow :=
  { year := 2020, dem_leader := none, rep_leader := none,
    dem_pct := none, rep_pct := none,
    dem_votes := none, rep_votes := none, total_votes := none, winner := none }

/-- C6 (witness): with target years `{2020, 2016}`, `docYears` yields
exactly its 2020 and 2016 rows (2018 and 2012 are discarded), and the year
filter applied to the concrete 2020 record confirms membership in the
target set. -/
theorem results_table_year_filter_witness :
    parse_election_results_table (some docYears) [2020, 2016] =
      [rowY2020,
       { year := 2016, dem_leader := none, rep_leader := none,
         dem_pct := none, rep_pct := none,
         dem_votes := none, rep_votes := none, total_votes := none, winner := none }] ∧
    rowY2020.year ∈ [(2020 : Int), 2016] := by
  refine ⟨by decide, ?_⟩
  exact results_table_year_filter (some docYears) [2020, 2016] rowY2020 (by decide)

/-! ## Orchestrator — `collector.py`, `StateElectionScraper`, and the
per-year national extractor interface of `years.py` -/

/-- One per-party dict returned by `scrape_election_year` (`years.py`):
party tag, candidate name, electoral/popular vote texts, and (for the
winning row only) the winner image URL; `.get` on absent keys yields
`None`, so all consumed values are optional. -/
structure Candidate where
  party : String
  leader : Option String
  electoral_votes : Option String
  popular_votes : Option String
  winner_image_url : Option String
deriving DecidableEq, Repr

/-- One entry of `self.national_year_data`: vote fields still carry the raw
popular-vote strings, normalized only later by `YearData.__init__`. -/
structure NatEntry where
  dem_leader : Option String
  rep_leader : Option String
  dem_votes : Option String
  rep_votes : Option String
  winner_image_url : Option String
deriving DecidableEq, Repr

/-- The all-absent entry: both the `{}` stored for a failed year and a
missing key read back field-by-field as `None` through
`self.national_year_data.get(year, {}).get(field)`. -/
def emptyNatEntry : NatEntry :=
  { dem_leader := none, rep_leader := none, dem_votes := none,
    rep_votes := none, winner_image_url := none }

/-- Python truthiness of an optional string (`if winner_image_url:`). -/
def truthyStr : Option String → Bool
  | some s => s ≠ ""
  | none => false

/-- Loop body of `_fetch_national_year_data` (`collector.py` lines 46–61):
route each candidate dict into the per-year entry by party tag; the winner
image is taken only when truthy. -/
def natEntryStep (e : NatEntry) (c : Candidate) : NatEntry :=
  if c.party = "Democratic" then
    { e with dem_leader := c.leader, dem_votes := c.popular_votes,
             winner_image_url :=
               if truthyStr c.winner_image_url then c.winner_image_url else e.winner_image_url }
  else if c.party = "Republican" then
    { e with rep_leader := c.leader, rep_votes := c.popular_votes,
             winner_image_url :=
               if truthyStr c.winner_image_url then c.winner_image_url else e.winner_image_url }
  else e

/-- Fold of `natEntryStep` over a year's candidate list, starting from the
entry initialized with all fields `None` (lines 39–45). -/
def build_year_entry (year_results : List Candidate) : NatEntry :=
  year_results.foldl natEntryStep emptyNatEntry

/-- A state page as `scrape_single_state` consumes it: the electoral-vote
outcome of `parse_state_details` (whose heading-based search is abstracted
to its result here, no claim depending on its internals; the source always
sets total_population to `None`), plus the results table document. -/
structure StateSoup where
  ev : Option Int
  results : ResultsDoc
deriving DecidableEq, Repr

/-- `parse_state_details` on the abstracted page: electoral votes as found,
total population always `None` (`parser.py` line 86). -/
def parse_state_details (sp : StateSoup) : Option Int × Option Int :=
  (sp.ev, none)

/-- The scraping environment: what each network fetch would return.
`natResults y` models `scrape_election_year(y)` (which catches every
exception and returns a list, possibly empty); `stateListDoc` the states
directory page; `statePage p` the page at path `p` (`None` on fetch
failure). -/
structure ScrapeEnv where
  natResults : Int → List Candidate
  stateListDoc : Option StatesSoup
  statePage : String → Option StateSoup

/-- `_fetch_national_year_data` (`collector.py` lines 32–67): sequentially,
for each target year, build the populated entry when `scrape_election_year`
returned candidates, and store the empty entry otherwise (the source
stores `{}`, which reads back as all-absent). -/
def fetch_national (env : ScrapeEnv) (target_years : List Int) : List (Int × NatEntry) :=
  target_years.map (fun y =>
    (y, if env.natResults y ≠ [] then build_year_entry (env.natResults y) else emptyNatEntry))

/-- `self.national_year_data.get(year, {})`: first matching key, else the
all-absent entry. -/
def natLookup : List (Int × NatEntry) → Int → NatEntry
  | [], _ => emptyNatEntry
  | p :: t, y => if p.1 = y then p.2 else natLookup t y

/-- `year_obj_cache` lookup (`if year not in year_obj_cache`). -/
def ycLookup : List (Int × YearData) → Int → Option YearData
  | [], _ => none
  | p :: t, y => if p.1 = y then some p.2 else ycLookup t y

/-- Observable events of one orchestrator run: a write to the national-year
cache (one per iteration of `_fetch_national_year_data` — both branches
assign `self.national_year_data[year]`), a read of it
(`self.national_year_data.get(year, {})` in the per-row merge loop), and
the start of a per-state task (`executor.submit`). -/
inductive ScrapeEvent
  | natCacheWrite (year : Int)
  | natCacheRead (year : Int)
  | stateTaskStart (state_name : String)
deriving DecidableEq, Repr

/-- Is the event a national-cache write? -/
def isNatWrite : ScrapeEvent → Bool
  | .natCacheWrite _ => true
  | _ => false

/-- Is the event a state-task start? -/
def isTaskStart : ScrapeEvent → Bool
  | .stateTaskStart _ => true
  | _ => false

/-- Event trace of `_fetch_national_year_data`: one cache write per target
year, in order. -/
def fetch_national_events (target_years : List Int) : List ScrapeEvent :=
  target_years.map ScrapeEvent.natCacheWrite

/-- `Option String → PyVoteVal`: what the collector actually hands to
`YearData.__init__` for a vote field (a raw string or `None`). -/
def optStrToVote : Option String → PyVoteVal
  | some s => .str s
  | none => .vnone

/-- `Option ℚ → PyPct`: a parsed percentage or `None` as passed to
`ElectionResult.__init__`. -/
def pctArg : Option ℚ → PyPct
  | some q => .num q
  | none => .pynone

/-- `Option Party → PyWinner`: the winner value from the parsed row. -/
def winnerArg : Option Party → PyWinner
  | some p => .party p
  | none => .pynone

/-- The `YearData(...)` call of `scrape_single_state` (`collector.py`
lines 119–127) for year `y`: national fields read from the cache entry for
`y` (all absent when the cache holds nothing for `y`), `total_votes=None`. -/
def mkYearFor (cache : List (Int × NatEntry)) (y : Int) : YearData :=
  let nd := natLookup cache y
  YearData.init y nd.dem_leader nd.rep_leader
    (optStrToVote nd.dem_votes) (optStrToVote nd.rep_votes) .vnone nd.winner_image_url

/-- One iteration of the per-row merge loop of `scrape_single_state`
(lines 110–142): read the national cache, reuse or create-and-store the
year object (the store happens before `ElectionResult` is attempted, so it
survives a per-year construction failure), then try to build the result;
a failure skips only this row. -/
def ssStep (cache : List (Int × NatEntry)) (state_obj : StateData)
    (acc : List ElectionResult × List (Int × YearData) × List ScrapeEvent)
    (row : ResultRow) :
    List ElectionResult × List (Int × YearData) × List ScrapeEvent :=
  let events := acc.2.2 ++ [ScrapeEvent.natCacheRead row.year]
  match ycLookup acc.2.1 row.year with
  | some year_obj =>
      match ElectionResult.init (.stateData state_obj) (.yearData year_obj)
          (pctArg row.dem_pct) (pctArg row.rep_pct) (winnerArg row.winner) with
      | .ok res => (acc.1 ++ [res], acc.2.1, events)
      | .error _ => (acc.1, acc.2.1, events)
  | none =>
      let year_obj := mkYearFor cache row.year
      match ElectionResult.init (.stateData state_obj) (.yearData year_obj)
          (pctArg row.dem_pct) (pctArg row.rep_pct) (winnerArg row.winner) with
      | .ok res => (acc.1 ++ [res], acc.2.1 ++ [(row.year, year_obj)], events)
      | .error _ => (acc.1, acc.2.1 ++ [(row.year, year_obj)], events)

/-- `scrape_single_state` (`collector.py` lines 77–144), instrumented with
its cache-interaction events: fetch failure or `StateData` construction
failure skips the whole state; otherwise fold the merge loop over the
parsed rows. -/
def scrape_single_state_instr (cache : List (Int × NatEntry)) (state_name : String)
    (page : Option StateSoup) (target_years : List Int) :
    List ElectionResult × List ScrapeEvent :=
  match page with
  | none => ([], [])
  | some sp =>
      match StateData.init state_name (parse_state_details sp).1 (parse_state_details sp).2 with
      | .error _ => ([], [])
      | .ok state_obj =>
          let parsed := parse_election_results_table (some sp.results) target_years
          let out := parsed.foldl (ssStep cache state_obj) ([], [], [])
          (out.1, out.2.2)

/-- The result list of one state's scrape. -/
def scrape_single_state (cache : List (Int × NatEntry)) (state_name : String)
    (page : Option StateSoup) (target_years : List Int) : List ElectionResult :=
  (scrape_single_state_instr cache state_name page target_years).1

/-- `scrape_all_states` (`collector.py` lines 146–173), instrumented:
national fetch first, then the state list; an empty list short-circuits to
an empty result; otherwise one task per state.  The source aggregates in
completion order, which is nondeterministic; this model uses submission
order — the claims settled against it do not depend on aggregate order. -/
def scrape_all_states_instr (env : ScrapeEnv) (target_years : List Int) :
    List ElectionResult × List ScrapeEvent :=
  let cache := fetch_national env target_years
  let links := parse_state_links env.stateListDoc
  if links = [] then ([], fetch_national_events target_years)
  else
    ((links.map (fun kv =>
        (scrape_single_state_instr cache kv.1 (env.statePage kv.2) target_years).1)).flatten,
     fetch_national_events target_years ++
       (links.map (fun kv =>
          ScrapeEvent.stateTaskStart kv.1 ::
            (scrape_single_state_instr cache kv.1 (env.statePage kv.2) target_years).2)).flatten)

/-- The aggregated result list of a full run. -/
def scrape_all_states (env : ScrapeEnv) (target_years : List Int) : List ElectionResult :=
  (scrape_all_states_instr env target_years).1

/-- The events of the concurrent state-scraping phase: everything after
`_fetch_national_year_data` has completed. -/
def concurrent_phase_events (env : ScrapeEnv) (target_years : List Int) : List ScrapeEvent :=
  let cache := fetch_national env target_years
  let links := parse_state_links env.stateListDoc
  if links = [] then []
  else
    (links.map (fun kv =>
        ScrapeEvent.stateTaskStart kv.1 ::
          (scrape_single_state_instr cache kv.1 (env.statePage kv.2) target_years).2)).flatten

/-- C4 (confirmed): when the state-list extraction yields an empty mapping
the orchestrator short-circuits to an empty result list; being a total
function of the environment, the embedded run raises nothing (the source
returns `all_election_results`, still empty, at line 153). -/
theorem scrape_all_states_empty_links (env : ScrapeEnv) (target_years : List Int)
    (h : parse_state_links env.stateListDoc = []) :
    scrape_all_states env target_years = [] := by
  simp [scrape_all_states, scrape_all_states_instr, h]

/-- An environment whose every fetch fails: no national data, no state
list, no state pages. -/
def envNoPages : ScrapeEnv :=
  { natResults := fun _ => [], stateListDoc := none, statePage := fun _ => none }

/-- C4 (witness): on `envNoPages` the state list is empty and the whole run
returns the empty list. -/
theorem scrape_all_states_empty_links_witness :
    parse_state_links envNoPages.stateListDoc = [] ∧
    scrape_all_states envNoPages [2020, 2016] = [] := by
  exact ⟨rfl, scrape_all_states_empty_links envNoPages [2020, 2016] rfl⟩

/-- The event component of one merge-loop iteration: exactly one cache
read is appended, whatever the branch. -/
lemma ssStep_events (cache : List (Int × NatEntry)) (state_obj : StateData)
    (acc : List ElectionResult × List (Int × YearData) × List ScrapeEvent)
    (row : ResultRow) :
    (ssStep cache state_obj acc row).2.2 = acc.2.2 ++ [ScrapeEvent.natCacheRead row.year] := by
  unfold ssStep
  split
  · split <;> rfl
  · dsimp only
    split <;> rfl

/-- The merge-loop fold only ever appends cache reads to its event list. -/
lemma ssFold_no_write (cache : List (Int × NatEntry)) (state_obj : StateData) :
    ∀ (rows : List ResultRow) (acc : List ElectionResult × List (Int × YearData) × List ScrapeEvent),
      (∀ e ∈ acc.2.2, isNatWrite e = false) →
      ∀ e ∈ (rows.foldl (ssStep cache state_obj) acc).2.2, isNatWrite e = false := by
  intro rows
  induction rows with
  | nil => intro acc h; exact h
  | cons r t ih =>
      intro acc h
      simp only [List.foldl_cons]
      apply ih
      rw [ssStep_events]
      intro e he
      rcases List.mem_append.mp he with h1 | h1
      · exact h e h1
      · simp only [List.mem_singleton] at h1
        subst h1
        rfl

/-- A state task's event trace contains no national-cache write. -/
lemma scrape_single_state_no_write (cache : List (Int × NatEntry)) (state_name : String)
    (page : Option StateSoup) (target_years : List Int) :
    ∀ e ∈ (scrape_single_state_instr cache state_name page target_years).2,
      isNatWrite e = false := by
  cases page with
  | none => intro e he; cases he
  | some sp =>
      cases hsd : StateData.init state_name (parse_state_details sp).1 (parse_state_details sp).2 with
      | error err =>
          simp only [scrape_single_state_instr, hsd]
          intro e he; cases he
      | ok state_obj =>
          simp only [scrape_single_state_instr, hsd]
          exact ssFold_no_write cache state_obj _ ([], [], []) (by intro e he; cases he)

/-- C9 (confirmed): in every run, the event trace decomposes as the
strictly sequential national-fetch phase followed by the state-task phase;
the national phase contains no task start, and the state phase contains no
national-cache write — so the cache is fully built, and closed for writes,
before any state task starts. -/
theorem national_fetch_precedes_state_tasks (env : ScrapeEnv) (target_years : List Int) :
    (scrape_all_states_instr env target_years).2 =
      fetch_national_events target_years ++ concurrent_phase_events env target_years ∧
    (∀ e ∈ fetch_national_events target_years, isTaskStart e = false) ∧
    (∀ e ∈ concurrent_phase_events env target_years, isNatWrite e = false) := by
  refine ⟨?_, ?_, ?_⟩
  · by_cases h : parse_state_links env.stateListDoc = []
    · simp [scrape_all_states_instr, concurrent_phase_events, h]
    · simp [scrape_all_states_instr, concurrent_phase_events, h]
  · intro e he
    simp only [fetch_national_events, List.mem_map] at he
    obtain ⟨y, _, rfl⟩ := he
    rfl
  · intro e he
    by_cases h : parse_state_links env.stateListDoc = []
    · simp [concurrent_phase_events, h] at he
    · simp only [concurrent_phase_events, if_neg h, List.mem_flatten, List.mem_map] at he
      obtain ⟨l, ⟨kv, _, rfl⟩, hel⟩ := he
      rcases List.mem_cons.mp hel with rfl | hel
      · rfl
      · exact scrape_single_state_no_write _ _ _ _ e hel

/-- A directory page listing a single state, for exercising the concurrent
phase of the trace theorem. -/
def docLinksAlaska : StatesSoup :=
  { divPrimary := some
      { contentLen := 1
        anchors := [ { href := some "/states/alaska", text := "Alaska" } ] }
    mainTag := none
    bodyTag := none }

/-- An environment with one state and no fetchable pages. -/
def envOneState : ScrapeEnv :=
  { natResults := fun _ => [], stateListDoc := some docLinksAlaska, statePage := fun _ => none }

/-- C9 (witness): the phase theorem evaluated on `envOneState`: the task
start of the single state lies in the concurrent phase and is not a cache
write, and the cache write for 2020 lies in the national phase and is not
a task start. -/
theorem national_fetch_precedes_state_tasks_witness :
    isNatWrite (ScrapeEvent.stateTaskStart "Alaska") = false ∧
    isTaskStart (ScrapeEvent.natCacheWrite 2020) = false := by
  refine ⟨?_, ?_⟩
  · exact (national_fetch_precedes_state_tasks envOneState [2020]).2.2
      (ScrapeEvent.stateTaskStart "Alaska") (by decide)
  · exact (national_fetch_precedes_state_tasks envOneState [2020]).2.1
      (ScrapeEvent.natCacheWrite 2020) (by decide)

/-- A successful cache lookup returns a stored pair. -/
lemma ycLookup_mem :
    ∀ (l : List (Int × YearData)) (y : Int) (yd : YearData),
      ycLookup l y = some yd → (y, yd) ∈ l := by
  intro l
  induction l with
  | nil => intro y yd h; cases h
  | cons p t ih =>
      intro y yd h
      unfold ycLookup at h
      by_cases hp : p.1 = y
      · rw [if_pos hp] at h
        cases Option.some.inj h
        have hpe : (y, p.2) = p := by
          rw [← hp]
        rw [hpe]
        exact List.mem_cons_self p t
      · rw [if_neg hp] at h
        exact List.mem_cons_of_mem _ (ih y yd h)

/-- A successful `ElectionResult.__init__` stores exactly the `YearData` it
was given. -/
lemma init_ok_year_info (s : StateData) (y : YearData) (dp rp : PyPct) (w : PyWinner)
    (res : ElectionResult)
    (h : ElectionResult.init (.stateData s) (.yearData y) dp rp w = .ok res) :
    res.year_info = y := by
  unfold ElectionResult.init at h
  cases hd : check_percentage dp with
  | error e =>
      simp only [hd] at h
      exact Except.noConfusion h
  | ok d =>
      cases hr : check_percentage rp with
      | error e =>
          simp only [hd, hr] at h
          exact Except.noConfusion h
      | ok r =>
          simp only [hd, hr] at h
          cases Except.ok.inj h
          rfl

/-- Merge-loop invariant: every cached year object, and the year object of
every accumulated result, is exactly the `YearData` built from the
national cache for its year. -/
lemma ssFold_merge_inv (cache : List (Int × NatEntry)) (state_obj : StateData) :
    ∀ (rows : List ResultRow) (acc : List ElectionResult × List (Int × YearData) × List ScrapeEvent),
      (∀ p ∈ acc.2.1, p.2 = mkYearFor cache p.1) →
      (∀ r ∈ acc.1, ∃ y, r.year_info = mkYearFor cache y) →
      (∀ p ∈ (rows.foldl (ssStep cache state_obj) acc).2.1, p.2 = mkYearFor cache p.1) ∧
        ∀ r ∈ (rows.foldl (ssStep cache state_obj) acc).1, ∃ y, r.year_info = mkYearFor cache y := by
  intro rows
  induction rows with
  | nil => intro acc h1 h2; exact ⟨h1, h2⟩
  | cons row t ih =>
      intro acc h1 h2
      simp only [List.foldl_cons]
      have hstep :
          (∀ p ∈ (ssStep cache state_obj acc row).2.1, p.2 = mkYearFor cache p.1) ∧
            ∀ r ∈ (ssStep cache state_obj acc row).1, ∃ y, r.year_info = mkYearFor cache y := by
        unfold ssStep
        cases hl : ycLookup acc.2.1 row.year with
        | some year_obj =>
            have hyo : year_obj = mkYearFor cache row.year :=
              h1 (row.year, year_obj) (ycLookup_mem _ _ _ hl)
            cases hm : ElectionResult.init (.stateData state_obj) (.yearData year_obj)
                (pctArg row.dem_pct) (pctArg row.rep_pct) (winnerArg row.winner) with
            | ok res =>
                simp only [hm]
                refine ⟨h1, ?_⟩
                intro r hr
                rcases List.mem_append.mp hr with h | h
                · exact h2 r h
                · simp only [List.mem_singleton] at h
                  subst h
                  exact ⟨row.year, by rw [init_ok_year_info _ _ _ _ _ _ hm, hyo]⟩
            | error e =>
                simp only [hm]
                exact ⟨h1, h2⟩
        | none =>
            dsimp only
            cases hm : ElectionResult.init (.stateData state_obj)
                (.yearData (mkYearFor cache row.year))
                (pctArg row.dem_pct) (pctArg row.rep_pct) (winnerArg row.winner) with
            | ok res =>
                simp only [hm]
                constructor
                · intro p hp
                  rcases List.mem_append.mp hp with h | h
                  · exact h1 p h
                  · simp only [List.mem_singleton] at h
                    subst h
                    rfl
                · intro r hr
                  rcases List.mem_append.mp hr with h | h
                  · exact h2 r h
                  · simp only [List.mem_singleton] at h
                    subst h
                    exact ⟨row.year, init_ok_year_info _ _ _ _ _ _ hm⟩
            | error e =>
                simp only [hm]
                refine ⟨?_, h2⟩
                intro p hp
                rcases List.mem_append.mp hp with h | h
                · exact h1 p h
                · simp only [List.mem_singleton] at h
                  subst h
                  rfl
      exact ih _ hstep.1 hstep.2

/-- C5 (confirmed): every result a state scrape emits carries the
`YearData` merged from the national cache entry for its own year: leaders,
normalized votes and winner image come from that entry (hence are all
absent when the cache holds nothing for that year, as `natLookup` then
yields the all-absent entry), and `total_votes` is always absent. -/
theorem scrape_single_state_merges_cache (cache : List (Int × NatEntry)) (state_name : String)
    (page : Option StateSoup) (target_years : List Int) (r : ElectionResult)
    (hr : r ∈ scrape_single_state cache state_name page target_years) :
    r.year_info.dem_leader = (natLookup cache r.year_info.year).dem_leader ∧
    r.year_info.rep_leader = (natLookup cache r.year_info.year).rep_leader ∧
    r.year_info.dem_votes =
      check_votes (optStrToVote (natLookup cache r.year_info.year).dem_votes) ∧
    r.year_info.rep_votes =
      check_votes (optStrToVote (natLookup cache r.year_info.year).rep_votes) ∧
    r.year_info.total_votes = none ∧
    r.year_info.winner_image_url = (natLookup cache r.year_info.year).winner_image_url := by
  have hy : ∃ y, r.year_info = mkYearFor cache y := by
    cases page with
    | none => cases hr
    | some sp =>
        cases hsd : StateData.init state_name (parse_state_details sp).1 (parse_state_details sp).2 with
        | error e =>
            simp only [scrape_single_state, scrape_single_state_instr, hsd] at hr
            cases hr
        | ok state_obj =>
            simp only [scrape_single_state, scrape_single_state_instr, hsd] at hr
            exact (ssFold_merge_inv cache state_obj
              (parse_election_results_table (some sp.results) target_years) ([], [], [])
              (by intro p hp; cases hp) (by intro q hq; cases hq)).2 r hr
  obtain ⟨y, hy⟩ := hy
  rw [hy]
  exact ⟨rfl, rfl, rfl, rfl, rfl, rfl⟩

/-- A national cache populated only for 2020. -/
def cacheW : List (Int × NatEntry) :=
  [(2020,
    { dem_leader := some "Joe Biden", rep_leader := some "Donald Trump",
      dem_votes := some "81,283,501", rep_votes := some "74,223,975",
      winner_image_url := some "/images/biden.png" })]

/-- A state page with rows for 2020 and 2016, each carrying percentages
`50%` / `40%`. -/
def stateSoupW : StateSoup :=
  { ev := some 16
    results :=
      { recentElections := some
          { toggleRows :=
              [ { style := none
                  tds :=
                    [ { text := "2020", nestedTable := none }
                    , { text := ""
                        nestedTable := some { firstRow := some { cells := ["50%", "x", "40%"] } } } ] }
              , { style := none
                  tds :=
                    [ { text := "2016", nestedTable := none }
                    , { text := ""
                        nestedTable := some { firstRow := some { cells := ["50%", "x", "40%"] } } } ] } ] } } }

/-- The merged result for 2016 on `stateSoupW` against `cacheW`: all
national fields absent. -/
def resultW2016 : ElectionResult :=
  { state_info := { state_name := "Georgia", electoral_votes := some 16, total_population := none }
    year_info := { year := 2016, dem_leader := none, rep_leader := none,
                   dem_votes := none, rep_votes := none, total_votes := none,
                   winner_image_url := none }
    dem_percentage := some 50
    rep_percentage := some 40
    winner := .party Party.democratic }

/-- C5 (witness): against a cache holding only 2020, the state's 2020
record carries the cached leaders, normalized votes and winner image, the
cache entry for 2016 is the all-absent one, and the merge theorem applied
to the concrete 2016 result confirms its national fields equal that absent
entry's. -/
theorem scrape_single_state_merges_cache_witness :
    resultW2016 ∈ scrape_single_state cacheW "Georgia" (some stateSoupW) [2020, 2016] ∧
    natLookup cacheW 2016 = emptyNatEntry ∧
    (∃ r2020 ∈ scrape_single_state cacheW "Georgia" (some stateSoupW) [2020, 2016],
        r2020.year_info.dem_leader = some "Joe Biden" ∧
        r2020.year_info.dem_votes = some 81283501 ∧
        r2020.year_info.winner_image_url = some "/images/biden.png") ∧
    (resultW2016.year_info.dem_leader = (natLookup cacheW resultW2016.year_info.year).dem_leader ∧
     resultW2016.year_info.rep_leader = (natLookup cacheW resultW2016.year_info.year).rep_leader ∧
     resultW2016.year_info.dem_votes =
       check_votes (optStrToVote (natLookup cacheW resultW2016.year_info.year).dem_votes) ∧
     resultW2016.year_info.rep_votes =
       check_votes (optStrToVote (natLookup cacheW resultW2016.year_info.year).rep_votes) ∧
     resultW2016.year_info.total_votes = none ∧
     resultW2016.year_info.winner_image_url =
       (natLookup cacheW resultW2016.year_info.year).winner_image_url) := by
  refine ⟨by decide, by decide, ?_, ?_⟩
  · refine ⟨{ state_info := { state_name := "Georgia", electoral_votes := some 16, total_population := none }
              year_info := { year := 2020, dem_leader := some "Joe Biden",
                             rep_leader := some "Donald Trump",
                             dem_votes := some 81283501, rep_votes := some 74223975,
                             total_votes := none,
                             winner_image_url := some "/images/biden.png" }
              dem_percentage := some 50
              rep_percentage := some 40
              winner := .party Party.democratic }, by decide, by decide, by decide, by decide⟩
  · exact scrape_single_state_merges_cache cacheW "Georgia" (some stateSoupW) [2020, 2016]
      resultW2016 (by decide)
